import Mathlib

/-!
Verification development for the `split_pages` Lambda handler
(`src/split_pages/app.py` of UMNLibraries/mp-covenants-split-pages).

A PIL image frame is modelled by its width, height, color mode (a string,
as in PIL: "1", "L", "RGB", ...) and an opaque pixel-content term.  The
pixel content records, as an uninterpreted term, which PIL operations were
applied (`Image.resize`, `Image.convert`); no arithmetic on pixels is
assumed, in particular `resize` and `convert` are not assumed to commute.

The TIFF encoder (`im.save(buffer, format="tiff")` followed by
`buffer.getbuffer().nbytes`) is modelled by an arbitrary function
`enc : Img → Nat` giving the encoded byte size of an image; theorems
quantify over `enc`, counterexamples instantiate it.

The S3 client is modelled by an explicit effect log: `lambda_handler`
returns, next to the Python return value, the ordered list of
`put_object` attempts made through `put_tif_buffer`.  Whether a given
put raises `botocore.exceptions.ClientError` is modelled by a parameter
`putFails : String → String → Bool` (bucket and key of the put).

Python `float` arithmetic is modelled exactly (by ℚ where only field
operations occur, by ℝ where `math.sqrt` occurs); `int(...)` on a
non-negative value is the floor.
-/

namespace SplitPages

/-- Opaque pixel content of a PIL image frame: either raw source pixels
(tagged by an identifier) or the result of a PIL operation. -/
inductive Content where
  | raw (id : Nat) : Content
  | resized (w h : Nat) (c : Content) : Content
  | converted (mode : String) (c : Content) : Content
deriving DecidableEq

/-- A single PIL image frame. -/
structure Img where
  width : Nat
  height : Nat
  mode : String
  content : Content
deriving DecidableEq

/-- Model of `im.resize((w, h), Image.Resampling.LANCZOS)`: sets the size, keeps
the mode, wraps the content. -/
def resizeImg (im : Img) (w h : Nat) : Img :=
  { width := w, height := h, mode := im.mode, content := Content.resized w h im.content }

/-- Model of `im.convert(m)`: sets the mode, keeps the size, wraps the content. -/
def convertImg (im : Img) (m : String) : Img :=
  { width := im.width, height := im.height, mode := m, content := Content.converted m im.content }

/-- Model of `check_img_mode(im)` (app.py lines 96-138): converts to RGB exactly
when the mode is in `['1']`. -/
def check_img_mode (im : Img) : Bool × Img :=
  if im.mode ∈ ["1"] then (true, convertImg im "RGB")
  else (false, im)

/-- Model of `check_oversized_dimen(im)` (app.py lines 41-72): if
`max(width, height) > 10000`, resize so the longer side is exactly 10000
and the shorter side is `int(shorter * (10000 / longer))` (Python float
division and truncation, modelled exactly over ℚ). -/
def check_oversized_dimen (im : Img) : Bool × Img :=
  let width := im.width
  let height := im.height
  let max_dimension := max width height
  if max_dimension ≤ 10000 then (false, im)
  else if width = max_dimension then
    let new_width : Nat := 10000
    let new_height : Nat := (((height : ℚ) * ((new_width : ℚ) / (width : ℚ))).floor).toNat
    (true, resizeImg im new_width new_height)
  else
    let new_height : Nat := 10000
    let new_width : Nat := (((width : ℚ) * ((new_height : ℚ) / (height : ℚ))).floor).toNat
    (true, resizeImg im new_width new_height)

/-- The new size computed inside `check_oversized_mem` (app.py lines
157-161):
`original_bytes_per_pixel = byte_size / (w * h)`,
`new_bytes_per_pixel = original_bytes_per_pixel * (max_bytes / byte_size)`,
`new_bytes_ratio = math.sqrt(new_bytes_per_pixel / original_bytes_per_pixel)`,
`(int(0.95 * new_bytes_ratio * w), int(0.95 * new_bytes_ratio * h))`.
Python float arithmetic is modelled exactly over ℝ. -/
noncomputable def memNewDims (w h byte_size max_bytes : Nat) : Nat × Nat :=
  let original_bytes_per_pixel : ℝ := (byte_size : ℝ) / ((w : ℝ) * (h : ℝ))
  let new_bytes_per_pixel : ℝ := original_bytes_per_pixel * ((max_bytes : ℝ) / (byte_size : ℝ))
  let new_bytes_ratio : ℝ := Real.sqrt (new_bytes_per_pixel / original_bytes_per_pixel)
  ((⌊(0.95 : ℝ) * new_bytes_ratio * (w : ℝ)⌋).toNat,
   (⌊(0.95 : ℝ) * new_bytes_ratio * (h : ℝ)⌋).toNat)

/-- Model of `check_oversized_mem(im, max_bytes=10485760)` (app.py lines 141-172):
encodes the image, and if the byte size exceeds `max_bytes`, resizes by
the estimated ratio (no clamping of the computed size, and the re-encoded
size after the resize is printed but not re-checked). -/
noncomputable def check_oversized_mem (enc : Img → Nat) (im : Img) (max_bytes : Nat) : Bool × Img :=
  let byte_size := enc im
  if byte_size > max_bytes then
    let nd := memNewDims im.width im.height byte_size max_bytes
    (true, resizeImg im nd.1 nd.2)
  else (false, im)

/-- Does `".tif"` (case-insensitively) start at the head of this
character list?  This is where `re.split(r'\.tif(?:f)?', key,
flags=re.IGNORECASE)` finds its first match (a match of `".tiff"` also
starts with `".tif"`). -/
def tifAt : List Char → Bool
  | '.' :: c1 :: c2 :: c3 :: _ =>
      (c1 == 't' || c1 == 'T') && (c2 == 'i' || c2 == 'I') && (c3 == 'f' || c3 == 'F')
  | _ => false

/-- Characters before the first case-insensitive occurrence of `".tif"`;
the whole list when there is none. -/
def stemChars : List Char → List Char
  | [] => []
  | c :: rest => if tifAt (c :: rest) then [] else c :: stemChars rest

/-- Model of `re.split(r'\.tif(?:f)?', key, flags=re.IGNORECASE)[0]` (app.py line
278): the part of the key before the first case-insensitive `.tif`
occurrence; the whole key when the extension does not match at all. -/
def key_minus_extension (key : String) : String := String.mk (stemChars key.data)

/-- Model of `f"{key_minus_extension}_SPLITPAGE_{page_num+1}.tif"` (app.py line
279), for 0-based `page_num`. -/
def splitPageKey (key : String) (page_num : Nat) : String :=
  key_minus_extension key ++ "_SPLITPAGE_" ++ toString (page_num + 1) ++ ".tif"

/-- Python's `pat in s` substring test. -/
def containsTok (s pat : List Char) : Bool :=
  match s with
  | [] => pat.isEmpty
  | _ :: rest => pat.isPrefixOf s || containsTok rest pat

/-- Model of `pat in key` on strings (app.py line 256). -/
def strContains (s pat : String) : Bool := containsTok s.data pat.data

/-- Result of `put_tif_buffer` (app.py lines 203-220): `True` on
success, or the 400 error dict built from the caught `ClientError`. -/
inductive PutOutcome where
  | success : PutOutcome
  | clientError (statusCode : Nat) (message : String) : PutOutcome
deriving DecidableEq

/-- Model of `put_tif_buffer(bucket, key, buffer)`: attempts `s3.put_object` and
catches `botocore.exceptions.ClientError`, returning an error dict
instead of raising.  Whether the put fails is the environment's choice,
modelled by `putFails`. -/
def put_tif_buffer (putFails : String → String → Bool) (bucket key : String)
    (buffer : Img) : PutOutcome :=
  if putFails bucket key then PutOutcome.clientError 400 "Boto clienterror"
  else PutOutcome.success

/-- One entry of `modified_pages` / `pages` in the handler's return
value. -/
structure PageDescriptor where
  bucket : String
  key : String
  page_num : Nat
deriving DecidableEq

/-- One `put_object` attempt made through `put_tif_buffer`: destination,
the image whose TIFF encoding was the body, and the outcome.  The
outcome is recorded in the effect log even though `lambda_handler`
discards `put_tif_buffer`'s return value. -/
structure PutAttempt where
  bucket : String
  key : String
  img : Img
  outcome : PutOutcome
deriving DecidableEq

/-- The `body` dict of the handler's return value (app.py lines
427-438).  In the `.DS_Store` early return the `bucket`/`orig`/
`page_count`/`modified_pages` keys are absent from the Python dict; they
are modelled as `""`/`0`/`[]` there. -/
structure HandlerBody where
  message : String
  bucket : String
  orig : String
  page_count : Nat
  modified_pages : List PageDescriptor
  pages : List PageDescriptor
deriving DecidableEq

/-- The handler's return value. -/
structure HandlerResult where
  statusCode : Nat
  body : HandlerBody
deriving DecidableEq

/-- State carried through the per-page loop of `lambda_handler`
(app.py lines 268-321): the *sticky* `bool_modified` flag (initialized
once before the loop and never reset), the two descriptor lists, and the
effect log of put attempts. -/
structure LoopState where
  bool_modified : Bool
  modified_pages : List PageDescriptor
  unmodified_pages : List PageDescriptor
  puts : List PutAttempt
deriving DecidableEq

/-- Loop state before the first iteration. -/
def initState : LoopState :=
  { bool_modified := false, modified_pages := [], unmodified_pages := [], puts := [] }

/-- Placeholder image for the (never-taken) out-of-range branch of
`List.getD`; the loop only indexes `0 ≤ page_num < frames.length`. -/
def dfltImg : Img := { width := 0, height := 0, mode := "", content := Content.raw 0 }

/-- One iteration of the `for page_num in range(0, num_pages)` loop
(app.py lines 273-321), for 0-based `page_num`:
* multi-page sources get a `_SPLITPAGE_` destination key and force
  `bool_modified = True`; single-page sources keep `out_key = key`;
* `check_img_mode` runs first and its flag is folded into
  `bool_modified`;
* `check_oversized_dimen` runs second and its flag is *discarded*
  (source line 294 binds `bool_oversized_dimen` but never uses it);
* `check_oversized_mem` runs third (with the default
  `max_bytes=10485760`) and its flag is folded into `bool_modified`;
* if `bool_modified`, the page is appended to `modified_pages` and
  `put_tif_buffer` is called, its return value discarded; otherwise the
  page is appended to `unmodified_pages` and nothing is written.
`sleep_if_needed` only pauses the process and is not modelled. -/
noncomputable def processPage (enc : Img → Nat) (putFails : String → String → Bool)
    (bucket key : String) (num_pages : Nat) (frames : List Img)
    (st : LoopState) (page_num : Nat) : LoopState :=
  let out_key := if num_pages > 1 then splitPageKey key page_num else key
  let bool_modified0 := if num_pages > 1 then true else st.bool_modified
  let page_im := frames.getD page_num dfltImg
  let r1 := check_img_mode page_im
  let bool_modified1 := if r1.1 then true else bool_modified0
  let r2 := check_oversized_dimen r1.2
  let r3 := check_oversized_mem enc r2.2 10485760
  let bool_modified2 := if r3.1 then true else bool_modified1
  if bool_modified2 then
    let outcome := put_tif_buffer putFails bucket out_key r3.2
    { bool_modified := bool_modified2
      modified_pages := st.modified_pages ++ [{ bucket := bucket, key := out_key, page_num := page_num + 1 }]
      unmodified_pages := st.unmodified_pages
      puts := st.puts ++ [{ bucket := bucket, key := out_key, img := r3.2, outcome := outcome }] }
  else
    { st with unmodified_pages := st.unmodified_pages ++ [{ bucket := bucket, key := out_key, page_num := page_num + 1 }] }

/-- The whole per-page loop, folding `processPage` over
`range(0, num_pages)` with `num_pages = frames.length` (the source's
`im.n_frames`). -/
noncomputable def handlerFold (enc : Img → Nat) (putFails : String → String → Bool)
    (bucket key : String) (frames : List Img) (n : Nat) : LoopState :=
  (List.range n).foldl (processPage enc putFails bucket key frames.length frames) initState

/-- Model of `lambda_handler(event, context)` (app.py lines 231-438), after the
trigger envelope has been parsed into `bucket` and `key` and
`s3.get_object`/`Image.open` has produced the frame list `frames`.
Returns the Python return value together with the ordered effect log of
`put_object` attempts. -/
noncomputable def lambda_handler (enc : Img → Nat) (putFails : String → String → Bool)
    (bucket key : String) (frames : List Img) : HandlerResult × List PutAttempt :=
  if strContains key ".DS_Store" then
    ({ statusCode := 200,
       body := { message := ".DS_Store file. Ignore!", bucket := "", orig := "",
                 page_count := 0, modified_pages := [], pages := [] } }, [])
  else
    let num_pages := frames.length
    let final := handlerFold enc putFails bucket key frames num_pages
    ({ statusCode := 200,
       body := { message := "Success", bucket := bucket, orig := key, page_count := num_pages,
                 modified_pages := final.modified_pages, pages := final.unmodified_pages } },
     final.puts)

/-- The image a page holds after the three checks of one loop iteration,
in the order the code applies them: mode, then dimension, then size. -/
noncomputable def postChecks (enc : Img → Nat) (im : Img) : Img :=
  (check_oversized_mem enc (check_oversized_dimen (check_img_mode im).2).2 10485760).2

/-- Modelled from the spec's words for claim C6 only (§4.2: "checks are
applied dimension → mode → size"): the same three checks, but with the
dimension check first and the mode check second.  Returns the three
flags and the final image. -/
noncomputable def specOrderChecks (enc : Img → Nat) (im : Img) : Bool × Bool × Bool × Img :=
  let r1 := check_oversized_dimen im
  let r2 := check_img_mode r1.2
  let r3 := check_oversized_mem enc r2.2 10485760
  (r1.1, r2.1, r3.1, r3.2)

/-- The order the code actually applies the three checks in (app.py
lines 288-297): mode, then dimension, then size.  Returns the three
flags and the final image. -/
noncomputable def codeOrderChecks (enc : Img → Nat) (im : Img) : Bool × Bool × Bool × Img :=
  let r1 := check_img_mode im
  let r2 := check_oversized_dimen r1.2
  let r3 := check_oversized_mem enc r2.2 10485760
  (r1.1, r2.1, r3.1, r3.2)

/-! ### Basic case lemmas for the three checks -/

/-- The function `Rat.floor` agrees with the `⌊⌋` of the `FloorRing` instance. -/
lemma ratFloor_eq_intFloor (q : ℚ) : q.floor = ⌊q⌋ := by
  rw [Rat.floor_def, Rat.floor_def']

lemma check_img_mode_of_ne {im : Img} (h : im.mode ≠ "1") :
    check_img_mode im = (false, im) := by
  simp [check_img_mode, h]

lemma check_img_mode_snd_mode (im : Img) : (check_img_mode im).2.mode ≠ "1" := by
  unfold check_img_mode
  split
  · simp [convertImg]
  · next h => simpa using h

lemma check_img_mode_snd_dims (im : Img) :
    (check_img_mode im).2.width = im.width ∧ (check_img_mode im).2.height = im.height := by
  unfold check_img_mode
  split <;> simp [convertImg]

lemma check_oversized_dimen_of_le {im : Img} (h : max im.width im.height ≤ 10000) :
    check_oversized_dimen im = (false, im) := by
  simp [check_oversized_dimen, h]

lemma check_oversized_dimen_snd_mode (im : Img) :
    (check_oversized_dimen im).2.mode = im.mode := by
  simp only [check_oversized_dimen]
  split
  · rfl
  · split <;> simp [resizeImg]

lemma check_oversized_mem_of_le {enc : Img → Nat} {im : Img} {max_bytes : Nat}
    (h : enc im ≤ max_bytes) :
    check_oversized_mem enc im max_bytes = (false, im) := by
  have h' : ¬ enc im > max_bytes := by omega
  simp [check_oversized_mem, h']

lemma check_oversized_mem_of_gt {enc : Img → Nat} {im : Img} {max_bytes : Nat}
    (h : max_bytes < enc im) :
    check_oversized_mem enc im max_bytes
      = (true, resizeImg im (memNewDims im.width im.height (enc im) max_bytes).1
          (memNewDims im.width im.height (enc im) max_bytes).2) := by
  simp [check_oversized_mem, h]

lemma check_oversized_mem_snd_mode (enc : Img → Nat) (im : Img) (max_bytes : Nat) :
    (check_oversized_mem enc im max_bytes).2.mode = im.mode := by
  simp only [check_oversized_mem]
  split
  · simp [resizeImg]
  · rfl

lemma check_oversized_mem_fst_iff (enc : Img → Nat) (im : Img) (max_bytes : Nat) :
    (check_oversized_mem enc im max_bytes).1 = true ↔ max_bytes < enc im := by
  simp only [check_oversized_mem]
  split
  · next h => simpa using h
  · next h => simpa using h

/-! ### Bounds on the dimension fix -/

lemma check_oversized_dimen_snd_le (im : Img) :
    max (check_oversized_dimen im).2.width (check_oversized_dimen im).2.height ≤ 10000 := by
  simp only [check_oversized_dimen]
  split
  · next h => exact h
  · next h =>
    split
    · next hw =>
      simp only [resizeImg, max_le_iff]
      refine ⟨le_refl _, ?_⟩
      have hwpos : 0 < im.width := by omega
      have hhw : im.height ≤ im.width := by omega
      have hq : (im.height : ℚ) * ((10000 : ℚ) / (im.width : ℚ)) ≤ 10000 := by
        rw [mul_div_assoc']
        rw [div_le_iff₀ (by exact_mod_cast hwpos)]
        calc (im.height : ℚ) * 10000 ≤ (im.width : ℚ) * 10000 := by
              have : (im.height : ℚ) ≤ (im.width : ℚ) := by exact_mod_cast hhw
              nlinarith
          _ = 10000 * (im.width : ℚ) := by ring
      have hfl : ⌊(im.height : ℚ) * ((10000 : ℚ) / (im.width : ℚ))⌋ ≤ (10000 : ℤ) := by
        calc ⌊(im.height : ℚ) * ((10000 : ℚ) / (im.width : ℚ))⌋
            ≤ ⌊(10000 : ℚ)⌋ := Int.floor_le_floor hq
          _ = 10000 := by norm_num
      rw [ratFloor_eq_intFloor]
      exact Int.toNat_le.mpr hfl
    · next hw =>
      simp only [resizeImg, max_le_iff]
      refine ⟨?_, le_refl _⟩
      have hh : im.height = max im.width im.height := by
        rcases max_choice im.width im.height with hc | hc
        · exact absurd hc.symm hw
        · exact hc.symm
      have hhpos : 0 < im.height := by omega
      have hwh : im.width ≤ im.height := by omega
      have hq : (im.width : ℚ) * ((10000 : ℚ) / (im.height : ℚ)) ≤ 10000 := by
        rw [mul_div_assoc']
        rw [div_le_iff₀ (by exact_mod_cast hhpos)]
        calc (im.width : ℚ) * 10000 ≤ (im.height : ℚ) * 10000 := by
              have : (im.width : ℚ) ≤ (im.height : ℚ) := by exact_mod_cast hwh
              nlinarith
          _ = 10000 * (im.height : ℚ) := by ring
      have hfl : ⌊(im.width : ℚ) * ((10000 : ℚ) / (im.height : ℚ))⌋ ≤ (10000 : ℤ) := by
        calc ⌊(im.width : ℚ) * ((10000 : ℚ) / (im.height : ℚ))⌋
            ≤ ⌊(10000 : ℚ)⌋ := Int.floor_le_floor hq
          _ = 10000 := by norm_num
      rw [ratFloor_eq_intFloor]
      exact Int.toNat_le.mpr hfl

/-! ### Bounds on the byte-budget resize ratio -/

/-- When the fix fires (`max_bytes < byte_size` in particular gives
`max_bytes ≤ byte_size`), the ratio under the square root simplifies to
`max_bytes / byte_size` (or to 0 if a dimension is 0) and is at most 1,
so the computed dimensions never exceed the originals. -/
lemma memNewDims_le_self {w h byte_size max_bytes : Nat} (hmB : max_bytes ≤ byte_size) :
    (memNewDims w h byte_size max_bytes).1 ≤ w ∧
    (memNewDims w h byte_size max_bytes).2 ≤ h := by
  unfold memNewDims
  set obpp : ℝ := (byte_size : ℝ) / ((w : ℝ) * (h : ℝ)) with hobpp
  have harg_le : (obpp * ((max_bytes : ℝ) / (byte_size : ℝ))) / obpp ≤ 1 := by
    rcases eq_or_ne obpp 0 with h0 | h0
    · rw [h0]
      simp
    · rw [mul_div_assoc, mul_div_assoc']
      rw [mul_comm, mul_div_assoc, div_self h0, mul_one]
      rcases Nat.eq_zero_or_pos byte_size with hB0 | hBpos
      · simp [hB0]
      · rw [div_le_one (by exact_mod_cast hBpos)]
        exact_mod_cast hmB
  have hr_le : Real.sqrt ((obpp * ((max_bytes : ℝ) / (byte_size : ℝ))) / obpp) ≤ 1 := by
    calc Real.sqrt ((obpp * ((max_bytes : ℝ) / (byte_size : ℝ))) / obpp)
        ≤ Real.sqrt 1 := Real.sqrt_le_sqrt harg_le
      _ = 1 := Real.sqrt_one
  have hr_nn : 0 ≤ Real.sqrt ((obpp * ((max_bytes : ℝ) / (byte_size : ℝ))) / obpp) :=
    Real.sqrt_nonneg _
  constructor
  · have hx : (0.95 : ℝ) * Real.sqrt ((obpp * ((max_bytes : ℝ) / (byte_size : ℝ))) / obpp) * (w : ℝ)
        ≤ (w : ℝ) := by nlinarith [Nat.cast_nonneg (α := ℝ) w]
    have hfl : ⌊(0.95 : ℝ) * Real.sqrt ((obpp * ((max_bytes : ℝ) / (byte_size : ℝ))) / obpp) * (w : ℝ)⌋
        ≤ (w : ℤ) := by
      calc ⌊(0.95 : ℝ) * Real.sqrt ((obpp * ((max_bytes : ℝ) / (byte_size : ℝ))) / obpp) * (w : ℝ)⌋
          ≤ ⌊((w : ℕ) : ℝ)⌋ := Int.floor_le_floor hx
        _ = (w : ℤ) := Int.floor_natCast w
    exact Int.toNat_le.mpr hfl
  · have hx : (0.95 : ℝ) * Real.sqrt ((obpp * ((max_bytes : ℝ) / (byte_size : ℝ))) / obpp) * (h : ℝ)
        ≤ (h : ℝ) := by nlinarith [Nat.cast_nonneg (α := ℝ) h]
    have hfl : ⌊(0.95 : ℝ) * Real.sqrt ((obpp * ((max_bytes : ℝ) / (byte_size : ℝ))) / obpp) * (h : ℝ)⌋
        ≤ (h : ℤ) := by
      calc ⌊(0.95 : ℝ) * Real.sqrt ((obpp * ((max_bytes : ℝ) / (byte_size : ℝ))) / obpp) * (h : ℝ)⌋
          ≤ ⌊((h : ℕ) : ℝ)⌋ := Int.floor_le_floor hx
        _ = (h : ℤ) := Int.floor_natCast h
    exact Int.toNat_le.mpr hfl

/-- Strict version: when the fix fires and the page has at least one
pixel per side, the new dimensions are strictly smaller (scale factor
`0.95 * sqrt(max_bytes / byte_size) < 1`). -/
lemma memNewDims_lt_self {w h byte_size max_bytes : Nat}
    (hw : 1 ≤ w) (hh : 1 ≤ h) (hmB : max_bytes < byte_size) :
    (memNewDims w h byte_size max_bytes).1 < w ∧
    (memNewDims w h byte_size max_bytes).2 < h := by
  simp only [memNewDims]
  set obpp : ℝ := (byte_size : ℝ) / ((w : ℝ) * (h : ℝ)) with hobpp
  have hBpos : 0 < byte_size := by omega
  have hobpp_pos : 0 < obpp := by
    rw [hobpp]
    apply div_pos
    · exact_mod_cast hBpos
    · have hw' : (0 : ℝ) < (w : ℝ) := by exact_mod_cast hw
      have hh' : (0 : ℝ) < (h : ℝ) := by exact_mod_cast hh
      positivity
  have harg : (obpp * ((max_bytes : ℝ) / (byte_size : ℝ))) / obpp
      = (max_bytes : ℝ) / (byte_size : ℝ) := by
    field_simp
    ring
  have harg_lt : (obpp * ((max_bytes : ℝ) / (byte_size : ℝ))) / obpp < 1 := by
    rw [harg, div_lt_one (by exact_mod_cast hBpos)]
    exact_mod_cast hmB
  have harg_nn : 0 ≤ (obpp * ((max_bytes : ℝ) / (byte_size : ℝ))) / obpp := by
    rw [harg]
    positivity
  have hr_lt : Real.sqrt ((obpp * ((max_bytes : ℝ) / (byte_size : ℝ))) / obpp) < 1 := by
    rw [Real.sqrt_lt' one_pos]
    simpa using harg_lt
  have hr_nn : 0 ≤ Real.sqrt ((obpp * ((max_bytes : ℝ) / (byte_size : ℝ))) / obpp) :=
    Real.sqrt_nonneg _
  constructor
  · have hwpos : (0 : ℝ) < (w : ℝ) := by exact_mod_cast hw
    have hx : (0.95 : ℝ) * Real.sqrt ((obpp * ((max_bytes : ℝ) / (byte_size : ℝ))) / obpp) * (w : ℝ)
        < (w : ℝ) := by nlinarith
    have hfl : ⌊(0.95 : ℝ) * Real.sqrt ((obpp * ((max_bytes : ℝ) / (byte_size : ℝ))) / obpp) * (w : ℝ)⌋
        < (w : ℤ) := by
      rw [Int.floor_lt]
      exact_mod_cast hx
    omega
  · have hhpos : (0 : ℝ) < (h : ℝ) := by exact_mod_cast hh
    have hx : (0.95 : ℝ) * Real.sqrt ((obpp * ((max_bytes : ℝ) / (byte_size : ℝ))) / obpp) * (h : ℝ)
        < (h : ℝ) := by nlinarith
    have hfl : ⌊(0.95 : ℝ) * Real.sqrt ((obpp * ((max_bytes : ℝ) / (byte_size : ℝ))) / obpp) * (h : ℝ)⌋
        < (h : ℤ) := by
      rw [Int.floor_lt]
      exact_mod_cast hx
    omega

/-! ### Shape of one loop iteration -/

/-- The destination key one loop iteration uses for 0-based page
`page_num`. -/
def outKey (key : String) (num_pages page_num : Nat) : String :=
  if num_pages > 1 then splitPageKey key page_num else key

/-- Each loop iteration appends exactly one descriptor, with 1-based
page number `page_num + 1` and key `outKey`, to exactly one of the two
lists, and never touches the other list; `puts` grows only in the
modified case. -/
lemma processPage_shape (enc : Img → Nat) (putFails : String → String → Bool)
    (bucket key : String) (num_pages : Nat) (frames : List Img)
    (st : LoopState) (page_num : Nat) :
    (∃ pa : PutAttempt,
      (processPage enc putFails bucket key num_pages frames st page_num).modified_pages
        = st.modified_pages
          ++ [{ bucket := bucket, key := outKey key num_pages page_num, page_num := page_num + 1 }] ∧
      (processPage enc putFails bucket key num_pages frames st page_num).unmodified_pages
        = st.unmodified_pages ∧
      (processPage enc putFails bucket key num_pages frames st page_num).puts
        = st.puts ++ [pa]) ∨
    ((processPage enc putFails bucket key num_pages frames st page_num).modified_pages
        = st.modified_pages ∧
      (processPage enc putFails bucket key num_pages frames st page_num).unmodified_pages
        = st.unmodified_pages
          ++ [{ bucket := bucket, key := outKey key num_pages page_num, page_num := page_num + 1 }] ∧
      (processPage enc putFails bucket key num_pages frames st page_num).puts
        = st.puts) := by
  simp only [processPage, outKey]
  split
  · exact Or.inl ⟨_, rfl, rfl, rfl⟩
  · split
    · exact Or.inl ⟨_, rfl, rfl, rfl⟩
    · split
      · exact Or.inl ⟨_, rfl, rfl, rfl⟩
      · split
        · exact Or.inl ⟨_, rfl, rfl, rfl⟩
        · exact Or.inr ⟨rfl, rfl, rfl⟩

/-! ### Page-count conservation over the fold -/

lemma handlerFold_succ (enc : Img → Nat) (putFails : String → String → Bool)
    (bucket key : String) (frames : List Img) (n : Nat) :
    handlerFold enc putFails bucket key frames (n + 1)
      = processPage enc putFails bucket key frames.length frames
          (handlerFold enc putFails bucket key frames n) n := by
  unfold handlerFold
  rw [List.range_succ, List.foldl_append]
  rfl

lemma handlerFold_count (enc : Img → Nat) (putFails : String → String → Bool)
    (bucket key : String) (frames : List Img) (n : Nat) :
    (handlerFold enc putFails bucket key frames n).modified_pages.length
        + (handlerFold enc putFails bucket key frames n).unmodified_pages.length = n ∧
    ∀ j : Nat,
      ((handlerFold enc putFails bucket key frames n).modified_pages.map PageDescriptor.page_num
        ++ (handlerFold enc putFails bucket key frames n).unmodified_pages.map
            PageDescriptor.page_num).count j
      = if 1 ≤ j ∧ j ≤ n then 1 else 0 := by
  induction n with
  | zero =>
    refine ⟨by simp [handlerFold, initState], fun j => ?_⟩
    have h0 : (if 1 ≤ j ∧ j ≤ 0 then 1 else 0) = 0 := by
      split_ifs with h
      · omega
      · rfl
    rw [h0]
    simp [handlerFold, initState]
  | succ n ih =>
    obtain ⟨ihlen, ihcount⟩ := ih
    rw [handlerFold_succ]
    rcases processPage_shape enc putFails bucket key frames.length frames
        (handlerFold enc putFails bucket key frames n) n with
      ⟨pa, h1, h2, _⟩ | ⟨h1, h2, _⟩
    · constructor
      · rw [h1, h2]
        simp only [List.length_append, List.length_cons, List.length_nil]
        omega
      · intro j
        rw [h1, h2]
        have hic := ihcount j
        simp only [List.count_append, List.map_append, List.map_cons, List.map_nil,
          List.count_cons, List.count_nil, beq_iff_eq] at hic ⊢
        split_ifs at hic ⊢ <;> omega
    · constructor
      · rw [h1, h2]
        simp only [List.length_append, List.length_cons, List.length_nil]
        omega
      · intro j
        rw [h1, h2]
        have hic := ihcount j
        simp only [List.count_append, List.map_append, List.map_cons, List.map_nil,
          List.count_cons, List.count_nil, beq_iff_eq] at hic ⊢
        split_ifs at hic ⊢ <;> omega

/-! ### Every written image went through the three checks -/

lemma postChecks_mode_ne (enc : Img → Nat) (im : Img) : (postChecks enc im).mode ≠ "1" := by
  unfold postChecks
  rw [check_oversized_mem_snd_mode, check_oversized_dimen_snd_mode]
  exact check_img_mode_snd_mode im

lemma postChecks_dims_le (enc : Img → Nat) (im : Img) :
    max (postChecks enc im).width (postChecks enc im).height ≤ 10000 := by
  unfold postChecks
  have hd : max (check_oversized_dimen (check_img_mode im).2).2.width
      (check_oversized_dimen (check_img_mode im).2).2.height ≤ 10000 :=
    check_oversized_dimen_snd_le _
  rcases le_or_lt (enc (check_oversized_dimen (check_img_mode im).2).2) 10485760 with hle | hgt
  · rw [check_oversized_mem_of_le hle]
    exact hd
  · rw [check_oversized_mem_of_gt hgt]
    have hml := @memNewDims_le_self
      (check_oversized_dimen (check_img_mode im).2).2.width
      (check_oversized_dimen (check_img_mode im).2).2.height
      (enc (check_oversized_dimen (check_img_mode im).2).2)
      10485760 (le_of_lt hgt)
    simp only [resizeImg, max_le_iff] at hd ⊢
    exact ⟨le_trans hml.1 hd.1, le_trans hml.2 hd.2⟩

/-- In a loop iteration, `puts` is unchanged or gets exactly one new
attempt, whose body is the image after the three checks. -/
lemma processPage_puts (enc : Img → Nat) (putFails : String → String → Bool)
    (bucket key : String) (num_pages : Nat) (frames : List Img)
    (st : LoopState) (page_num : Nat) :
    (processPage enc putFails bucket key num_pages frames st page_num).puts = st.puts ∨
    ∃ k2 : String,
      (processPage enc putFails bucket key num_pages frames st page_num).puts
        = st.puts ++ [⟨bucket, k2, postChecks enc (frames.getD page_num dfltImg),
            put_tif_buffer putFails bucket k2 (postChecks enc (frames.getD page_num dfltImg))⟩] := by
  simp only [processPage, postChecks]
  split
  · exact Or.inr ⟨_, rfl⟩
  · split
    · exact Or.inr ⟨_, rfl⟩
    · split
      · exact Or.inr ⟨_, rfl⟩
      · split
        · exact Or.inr ⟨_, rfl⟩
        · exact Or.inl rfl

lemma handlerFold_puts_postChecks (enc : Img → Nat) (putFails : String → String → Bool)
    (bucket key : String) (frames : List Img) (n : Nat) :
    ∀ pa ∈ (handlerFold enc putFails bucket key frames n).puts,
      ∃ p : Img, pa.img = postChecks enc p := by
  induction n with
  | zero => simp [handlerFold, initState]
  | succ n ih =>
    rw [handlerFold_succ]
    rcases processPage_puts enc putFails bucket key frames.length frames
        (handlerFold enc putFails bucket key frames n) n with h | ⟨k2, h⟩
    · rw [h]
      exact ih
    · rw [h]
      intro pa hpa
      rcases List.mem_append.mp hpa with hl | hr
      · exact ih pa hl
      · have hpaeq := List.mem_singleton.mp hr
        exact ⟨_, by rw [hpaeq]⟩

/-! ### Evaluating the handler on a single already-compliant page -/

lemma handlerFold_zero (enc : Img → Nat) (putFails : String → String → Bool)
    (bucket key : String) (frames : List Img) :
    handlerFold enc putFails bucket key frames 0 = initState := by
  simp [handlerFold]

/-- A single-frame input whose page passes all three checks is reported
unmodified under the unchanged key, and nothing is written. -/
lemma lambda_handler_single_clean (enc : Img → Nat) (putFails : String → String → Bool)
    (b k : String) (im : Img)
    (hk : strContains k ".DS_Store" = false)
    (hmode : im.mode ≠ "1")
    (hdim : max im.width im.height ≤ 10000)
    (hsize : enc im ≤ 10485760) :
    lambda_handler enc putFails b k [im]
      = ({ statusCode := 200,
           body := { message := "Success", bucket := b, orig := k, page_count := 1,
                     modified_pages := [], pages := [{ bucket := b, key := k, page_num := 1 }] } },
         []) := by
  have hstep : processPage enc putFails b k (([im] : List Img)).length [im] initState 0
      = { bool_modified := false, modified_pages := [],
          unmodified_pages := [{ bucket := b, key := k, page_num := 1 }], puts := [] } := by
    simp only [processPage, List.length_singleton, List.getD_cons_zero, gt_iff_lt,
      lt_self_iff_false, if_false, check_img_mode_of_ne hmode,
      check_oversized_dimen_of_le hdim, check_oversized_mem_of_le hsize]
    simp [initState]
  have hfold : handlerFold enc putFails b k [im] 1
      = { bool_modified := false, modified_pages := [],
          unmodified_pages := [{ bucket := b, key := k, page_num := 1 }], puts := [] } := by
    rw [show (1 : Nat) = 0 + 1 from rfl, handlerFold_succ, handlerFold_zero]
    exact hstep
  unfold lambda_handler
  simp only [hk, Bool.false_eq_true, if_false, List.length_singleton]
  rw [hfold]

/-! ### The handler's return value does not depend on put failures -/

lemma processPage_pf_independent (enc : Img → Nat) (pf pf' : String → String → Bool)
    (bucket key : String) (num_pages : Nat) (frames : List Img)
    (st st' : LoopState) (page_num : Nat)
    (hm : st.bool_modified = st'.bool_modified)
    (h1 : st.modified_pages = st'.modified_pages)
    (h2 : st.unmodified_pages = st'.unmodified_pages) :
    (processPage enc pf bucket key num_pages frames st page_num).bool_modified
      = (processPage enc pf' bucket key num_pages frames st' page_num).bool_modified ∧
    (processPage enc pf bucket key num_pages frames st page_num).modified_pages
      = (processPage enc pf' bucket key num_pages frames st' page_num).modified_pages ∧
    (processPage enc pf bucket key num_pages frames st page_num).unmodified_pages
      = (processPage enc pf' bucket key num_pages frames st' page_num).unmodified_pages := by
  simp only [processPage]
  rw [hm, h1, h2]
  split
  · exact ⟨rfl, rfl, rfl⟩
  · split
    · exact ⟨rfl, rfl, rfl⟩
    · split
      · exact ⟨rfl, rfl, rfl⟩
      · split
        · exact ⟨rfl, rfl, rfl⟩
        · exact ⟨rfl, rfl, rfl⟩

lemma handlerFold_pf_independent (enc : Img → Nat) (pf pf' : String → String → Bool)
    (bucket key : String) (frames : List Img) (n : Nat) :
    (handlerFold enc pf bucket key frames n).bool_modified
      = (handlerFold enc pf' bucket key frames n).bool_modified ∧
    (handlerFold enc pf bucket key frames n).modified_pages
      = (handlerFold enc pf' bucket key frames n).modified_pages ∧
    (handlerFold enc pf bucket key frames n).unmodified_pages
      = (handlerFold enc pf' bucket key frames n).unmodified_pages := by
  induction n with
  | zero => exact ⟨rfl, rfl, rfl⟩
  | succ n ih =>
    rw [handlerFold_succ, handlerFold_succ]
    exact processPage_pf_independent enc pf pf' bucket key frames.length frames _ _ n
      ih.1 ih.2.1 ih.2.2

/-! ### Evaluation machinery for concrete runs -/

/-- Evaluating one loop iteration from the results of the three checks. -/
lemma processPage_eval (enc : Img → Nat) (pf : String → String → Bool)
    (b k : String) (np : Nat) (frames : List Img) (st : LoopState) (p : Nat)
    (im i1 i2 i3 : Img) (b1 b2 b3 : Bool)
    (hgetd : frames.getD p dfltImg = im)
    (h1 : check_img_mode im = (b1, i1))
    (h2 : check_oversized_dimen i1 = (b2, i2))
    (h3 : check_oversized_mem enc i2 10485760 = (b3, i3)) :
    processPage enc pf b k np frames st p
      = (if (if b3 then true else if b1 then true else if np > 1 then true else st.bool_modified)
        then
          { bool_modified :=
              (if b3 then true else if b1 then true else if np > 1 then true else st.bool_modified)
            modified_pages := st.modified_pages
              ++ [⟨b, if np > 1 then splitPageKey k p else k, p + 1⟩]
            unmodified_pages := st.unmodified_pages
            puts := st.puts ++ [⟨b, if np > 1 then splitPageKey k p else k, i3,
              put_tif_buffer pf b (if np > 1 then splitPageKey k p else k) i3⟩] }
        else
          { st with unmodified_pages := st.unmodified_pages
              ++ [⟨b, if np > 1 then splitPageKey k p else k, p + 1⟩] }) := by
  simp only [processPage, hgetd, h1, h2, h3]

/-- Unfolding a one-page run of the handler. -/
lemma lambda_handler_single (enc : Img → Nat) (pf : String → String → Bool)
    (b k : String) (im : Img) (hk : strContains k ".DS_Store" = false) :
    lambda_handler enc pf b k [im]
      = ({ statusCode := 200,
           body := { message := "Success", bucket := b, orig := k, page_count := 1,
                     modified_pages := (processPage enc pf b k 1 [im] initState 0).modified_pages,
                     pages := (processPage enc pf b k 1 [im] initState 0).unmodified_pages } },
         (processPage enc pf b k 1 [im] initState 0).puts) := by
  unfold lambda_handler
  simp only [hk, Bool.false_eq_true, if_false]
  rw [show (([im] : List Img)).length = 0 + 1 from rfl, handlerFold_succ, handlerFold_zero]
  exact rfl

/-- Unfolding a two-page run of the handler. -/
lemma lambda_handler_two (enc : Img → Nat) (pf : String → String → Bool)
    (b k : String) (im0 im1 : Img) (hk : strContains k ".DS_Store" = false) :
    lambda_handler enc pf b k [im0, im1]
      = ({ statusCode := 200,
           body := { message := "Success", bucket := b, orig := k, page_count := 2,
                     modified_pages := (processPage enc pf b k 2 [im0, im1]
                       (processPage enc pf b k 2 [im0, im1] initState 0) 1).modified_pages,
                     pages := (processPage enc pf b k 2 [im0, im1]
                       (processPage enc pf b k 2 [im0, im1] initState 0) 1).unmodified_pages } },
         (processPage enc pf b k 2 [im0, im1]
           (processPage enc pf b k 2 [im0, im1] initState 0) 1).puts) := by
  unfold lambda_handler
  simp only [hk, Bool.false_eq_true, if_false]
  rw [show (([im0, im1] : List Img)).length = 0 + 1 + 1 from rfl, handlerFold_succ,
    handlerFold_succ, handlerFold_zero]
  exact rfl

/-! ### Concrete encoders, failure policies and images -/

/-- Every put succeeds. -/
def noFail : String → String → Bool := fun _ _ => false

/-- Every put raises `ClientError`. -/
def allFail : String → String → Bool := fun _ _ => true

/-- Constant encoder: every image encodes to 1000 bytes. -/
def encSmall : Img → Nat := fun _ => 1000

/-- Constant encoder: every image encodes to 5000000 bytes. -/
def enc5M : Img → Nat := fun _ => 5000000

/-- Encoder charging 3 bytes per pixel (as an uncompressed RGB TIFF
would). -/
def enc3bpp : Img → Nat := fun im => im.width * im.height * 3

/-- Constant encoder: every image encodes to 41943040 bytes (four times
the Textract limit). -/
def encHuge : Img → Nat := fun _ => 41943040

/-- Encoder modelling a compressor whose ratio degrades on resampled
pages: a raw frame encodes to 41943040 bytes, while any processed
(resampled or mode-converted) image still encodes to 10600000 bytes,
slightly over the 10485760-byte limit.  Compression is not proportional
to pixel count, so this is an admissible TIFF-encoder behaviour. -/
def encSticky : Img → Nat := fun im =>
  match im.content with
  | Content.raw _ => 41943040
  | _ => 10600000

/-- Single page failing only the dimension check: 20000 x 10000 pixels,
grayscale. -/
def imDim : Img := { width := 20000, height := 10000, mode := "L", content := Content.raw 0 }

/-- Single page failing only the mode check: 100 x 100, 1-bit indexed. -/
def imBit : Img := { width := 100, height := 100, mode := "1", content := Content.raw 0 }

/-- Page whose 3-bytes-per-pixel encoding is 10404000 bytes: between
99 percent of the limit and the limit itself. -/
def imMid : Img := { width := 2000, height := 1734, mode := "RGB", content := Content.raw 0 }

/-- Page failing the mode check and the dimension check at once. -/
def imBitDim : Img := { width := 20000, height := 10000, mode := "1", content := Content.raw 0 }

/-- One-pixel page. -/
def imTiny : Img := { width := 1, height := 1, mode := "L", content := Content.raw 0 }

/-- Ten-pixel-square page. -/
def imTen : Img := { width := 10, height := 10, mode := "L", content := Content.raw 0 }

/-- Fully compliant page. -/
def imOk : Img := { width := 100, height := 100, mode := "L", content := Content.raw 0 }

/-- First frame of the multi-page counterexample source. -/
def f0 : Img := { width := 4000, height := 3000, mode := "L", content := Content.raw 0 }

/-- Second frame of the multi-page counterexample source. -/
def f1 : Img := { width := 4000, height := 3000, mode := "L", content := Content.raw 1 }

/-! ### Evaluating `memNewDims` at a ratio of one quarter -/

lemma memNewDims_4000_3000 : memNewDims 4000 3000 41943040 10485760 = (1900, 1425) := by
  have harg : (((41943040 : Nat) : ℝ) / (((4000 : Nat) : ℝ) * ((3000 : Nat) : ℝ))
        * (((10485760 : Nat) : ℝ) / ((41943040 : Nat) : ℝ)))
      / (((41943040 : Nat) : ℝ) / (((4000 : Nat) : ℝ) * ((3000 : Nat) : ℝ)))
      = ((1 : ℝ) / 2) ^ 2 := by
    push_cast
    norm_num
  simp only [memNewDims, harg, Real.sqrt_sq (by norm_num : (0 : ℝ) ≤ 1 / 2)]
  have hw : (0.95 : ℝ) * (1 / 2) * ((4000 : Nat) : ℝ) = ((1900 : Nat) : ℝ) := by
    push_cast
    norm_num
  have hh : (0.95 : ℝ) * (1 / 2) * ((3000 : Nat) : ℝ) = ((1425 : Nat) : ℝ) := by
    push_cast
    norm_num
  rw [hw, hh, Int.floor_natCast, Int.floor_natCast]
  simp

lemma memNewDims_1_1 : memNewDims 1 1 41943040 10485760 = (0, 0) := by
  have harg : (((41943040 : Nat) : ℝ) / (((1 : Nat) : ℝ) * ((1 : Nat) : ℝ))
        * (((10485760 : Nat) : ℝ) / ((41943040 : Nat) : ℝ)))
      / (((41943040 : Nat) : ℝ) / (((1 : Nat) : ℝ) * ((1 : Nat) : ℝ)))
      = ((1 : ℝ) / 2) ^ 2 := by
    push_cast
    norm_num
  simp only [memNewDims, harg, Real.sqrt_sq (by norm_num : (0 : ℝ) ≤ 1 / 2)]
  have hx : (0.95 : ℝ) * (1 / 2) * ((1 : Nat) : ℝ) = 0.475 := by
    push_cast
    norm_num
  have hfl : ⌊(0.475 : ℝ)⌋ = 0 := by
    rw [Int.floor_eq_zero_iff]
    constructor <;> norm_num
  rw [hx, hfl]
  simp

/-! ### Evaluating the dimension fix on the 20000 x 10000 pages -/

lemma ratFloor_5000_toNat : (Rat.floor (5000 : ℚ)).toNat = 5000 := by
  rw [ratFloor_eq_intFloor, show (5000 : ℚ) = ((5000 : Nat) : ℚ) by norm_num, Int.floor_natCast]
  rfl

lemma cd_imDim : check_oversized_dimen imDim = (true, resizeImg imDim 10000 5000) := by
  have hval : (((10000 : Nat) : ℚ)) * (((10000 : Nat) : ℚ) / ((20000 : Nat) : ℚ))
      = ((5000 : Nat) : ℚ) := by
    push_cast
    norm_num
  have hfl : ((((10000 : Nat) : ℚ)) * (((10000 : Nat) : ℚ) / ((20000 : Nat) : ℚ))).floor.toNat
      = 5000 := by
    rw [ratFloor_eq_intFloor, hval, Int.floor_natCast]
    rfl
  simp only [check_oversized_dimen, imDim]
  norm_num [hfl, ratFloor_5000_toNat]

lemma cd_imBitDimConverted :
    check_oversized_dimen (convertImg imBitDim "RGB")
      = (true, resizeImg (convertImg imBitDim "RGB") 10000 5000) := by
  have hval : (((10000 : Nat) : ℚ)) * (((10000 : Nat) : ℚ) / ((20000 : Nat) : ℚ))
      = ((5000 : Nat) : ℚ) := by
    push_cast
    norm_num
  have hfl : ((((10000 : Nat) : ℚ)) * (((10000 : Nat) : ℚ) / ((20000 : Nat) : ℚ))).floor.toNat
      = 5000 := by
    rw [ratFloor_eq_intFloor, hval, Int.floor_natCast]
    rfl
  simp only [check_oversized_dimen, convertImg, imBitDim]
  norm_num [hfl, ratFloor_5000_toNat]

lemma cd_imBitDim :
    check_oversized_dimen imBitDim = (true, resizeImg imBitDim 10000 5000) := by
  have hval : (((10000 : Nat) : ℚ)) * (((10000 : Nat) : ℚ) / ((20000 : Nat) : ℚ))
      = ((5000 : Nat) : ℚ) := by
    push_cast
    norm_num
  have hfl : ((((10000 : Nat) : ℚ)) * (((10000 : Nat) : ℚ) / ((20000 : Nat) : ℚ))).floor.toNat
      = 5000 := by
    rw [ratFloor_eq_intFloor, hval, Int.floor_natCast]
    rfl
  simp only [check_oversized_dimen, imBitDim]
  norm_num [hfl, ratFloor_5000_toNat]

/-! ### Claim C5 -/

/-- Claim C5, counterexample: a page whose encoded size is 10404000
bytes — strictly between 99 percent of the hard limit (10380902 bytes)
and the hard limit itself (10485760 bytes) — does NOT trigger the
byte-budget fix: `check_oversized_mem` compares against the full
10485760, not against a 99-percent budget. -/
theorem C5_counterexample :
    10380902 < enc3bpp imMid ∧ enc3bpp imMid < 10485760 ∧
    (check_oversized_mem enc3bpp imMid 10485760).1 = false ∧
    (check_oversized_mem enc3bpp imMid 10485760).2 = imMid := by
  have h : enc3bpp imMid = 10404000 := by norm_num [enc3bpp, imMid]
  have hle : enc3bpp imMid ≤ 10485760 := by omega
  rw [check_oversized_mem_of_le hle]
  refine ⟨by omega, by omega, rfl, rfl⟩

/-- Claim C5, amended: the byte-size compliance check compares the
encoded size against the full downstream hard limit of 10485760 bytes
(the value of the `max_bytes` default used by the handler); the fix
fires exactly when the encoded size strictly exceeds 10485760. -/
theorem C5_threshold_is_hard_limit (enc : Img → Nat) (im : Img) :
    (check_oversized_mem enc im 10485760).1 = true ↔ 10485760 < enc im :=
  check_oversized_mem_fst_iff enc im 10485760

/-! ### Claim C10 -/

/-- Claim C10: whenever `check_oversized_mem` reports a change (the
encoded size exceeded `max_bytes`), the output width and height are
strictly smaller than the input's — the scale factor
`0.95 * sqrt(max_bytes / byte_size)` is strictly below 1 — for any page
with at least one pixel per side. -/
theorem C10_mem_fix_shrinks (enc : Img → Nat) (im : Img) (max_bytes : Nat)
    (hw : 1 ≤ im.width) (hh : 1 ≤ im.height)
    (hfired : (check_oversized_mem enc im max_bytes).1 = true) :
    (check_oversized_mem enc im max_bytes).2.width < im.width ∧
    (check_oversized_mem enc im max_bytes).2.height < im.height := by
  have hgt : max_bytes < enc im := (check_oversized_mem_fst_iff enc im max_bytes).mp hfired
  rw [check_oversized_mem_of_gt hgt]
  have hlt := @memNewDims_lt_self im.width im.height (enc im) max_bytes hw hh hgt
  simpa [resizeImg] using hlt

/-- Witness for C10 at the 10 x 10 page whose encoding is four times the
limit. -/
theorem C10_mem_fix_shrinks_witness :
    1 ≤ imTen.width ∧ 1 ≤ imTen.height ∧
    (check_oversized_mem encHuge imTen 10485760).1 = true ∧
    ((check_oversized_mem encHuge imTen 10485760).2.width < imTen.width ∧
     (check_oversized_mem encHuge imTen 10485760).2.height < imTen.height) := by
  have hgt : (10485760 : Nat) < encHuge imTen := by norm_num [encHuge]
  have hfired : (check_oversized_mem encHuge imTen 10485760).1 = true := by
    rw [check_oversized_mem_of_gt hgt]
  exact ⟨by norm_num [imTen], by norm_num [imTen], hfired,
    C10_mem_fix_shrinks encHuge imTen 10485760 (by norm_num [imTen]) (by norm_num [imTen]) hfired⟩

/-! ### Claim C7 -/

/-- Claim C7, counterexample: for a 1 x 1 page whose encoding is four
times the limit, the computed resize target is (0, 0) — the code does
not clamp to a minimum of 1 pixel per side, and no warning of any kind
exists in it. -/
theorem C7_counterexample :
    (check_oversized_mem encHuge imTiny 10485760).1 = true ∧
    (check_oversized_mem encHuge imTiny 10485760).2.width = 0 ∧
    (check_oversized_mem encHuge imTiny 10485760).2.height = 0 := by
  have hgt : (10485760 : Nat) < encHuge imTiny := by norm_num [encHuge]
  rw [check_oversized_mem_of_gt hgt]
  have hdims : memNewDims imTiny.width imTiny.height (encHuge imTiny) 10485760 = (0, 0) := by
    have h1 : imTiny.width = 1 := rfl
    have h2 : imTiny.height = 1 := rfl
    have h3 : encHuge imTiny = 41943040 := rfl
    rw [h1, h2, h3]
    exact memNewDims_1_1
  simp [resizeImg, hdims]

/-- Claim C7, amended: `check_oversized_mem` performs no clamping at
all — whenever the fix fires, the output dimensions are exactly the
floors computed by `memNewDims`, even when they are 0. -/
theorem C7_no_clamp (enc : Img → Nat) (im : Img) (max_bytes : Nat)
    (h : max_bytes < enc im) :
    (check_oversized_mem enc im max_bytes).2.width
        = (memNewDims im.width im.height (enc im) max_bytes).1 ∧
    (check_oversized_mem enc im max_bytes).2.height
        = (memNewDims im.width im.height (enc im) max_bytes).2 := by
  rw [check_oversized_mem_of_gt h]
  exact ⟨rfl, rfl⟩

/-- Witness for the amended C7 at the 1 x 1 page. -/
theorem C7_no_clamp_witness :
    10485760 < encHuge imTiny ∧
    ((check_oversized_mem encHuge imTiny 10485760).2.width
        = (memNewDims imTiny.width imTiny.height (encHuge imTiny) 10485760).1 ∧
     (check_oversized_mem encHuge imTiny 10485760).2.height
        = (memNewDims imTiny.width imTiny.height (encHuge imTiny) 10485760).2) :=
  ⟨by norm_num [encHuge], C7_no_clamp encHuge imTiny 10485760 (by norm_num [encHuge])⟩

/-! ### Claim C2 -/

/-- Claim C2, code bug: a single-page input that fails ONLY the
dimension check is resized, but the check's boolean result is discarded
(app.py line 294 never feeds `bool_oversized_dimen` into
`bool_modified`), so the page is reported in the unmodified list, the
resized image is thrown away, and nothing is written. -/
theorem C2_dimension_fix_dropped :
    (check_oversized_dimen imDim).1 = true ∧
    (lambda_handler encSmall noFail "b" "deed.tif" [imDim]).1.body.modified_pages = [] ∧
    (lambda_handler encSmall noFail "b" "deed.tif" [imDim]).1.body.pages
      = [{ bucket := "b", key := "deed.tif", page_num := 1 }] ∧
    (lambda_handler encSmall noFail "b" "deed.tif" [imDim]).2 = [] := by
  have hk : strContains "deed.tif" ".DS_Store" = false := by decide
  have h1 : check_img_mode imDim = (false, imDim) :=
    check_img_mode_of_ne (by decide)
  have h3 : check_oversized_mem encSmall (resizeImg imDim 10000 5000) 10485760
      = (false, resizeImg imDim 10000 5000) :=
    check_oversized_mem_of_le (by norm_num [encSmall])
  have hstep := processPage_eval encSmall noFail "b" "deed.tif" 1 [imDim] initState 0
    imDim imDim (resizeImg imDim 10000 5000) (resizeImg imDim 10000 5000) false true false
    (by rfl) h1 cd_imDim h3
  rw [lambda_handler_single encSmall noFail "b" "deed.tif" imDim hk]
  rw [hstep]
  refine ⟨by rw [cd_imDim], ?_, ?_, ?_⟩ <;> simp [initState]

/-- Evaluating a loop iteration of a multi-page run: the split branch
always marks the page modified and writes it. -/
lemma processPage_multi (enc : Img → Nat) (pf : String → String → Bool)
    (b k : String) (np : Nat) (frames : List Img) (st : LoopState) (p : Nat)
    (im i1 i2 i3 : Img) (b1 b2 b3 : Bool) (hnp : 1 < np)
    (hgetd : frames.getD p dfltImg = im)
    (h1 : check_img_mode im = (b1, i1))
    (h2 : check_oversized_dimen i1 = (b2, i2))
    (h3 : check_oversized_mem enc i2 10485760 = (b3, i3)) :
    processPage enc pf b k np frames st p
      = { bool_modified := true
          modified_pages := st.modified_pages ++ [⟨b, splitPageKey k p, p + 1⟩]
          unmodified_pages := st.unmodified_pages
          puts := st.puts ++ [⟨b, splitPageKey k p, i3, put_tif_buffer pf b (splitPageKey k p) i3⟩] } := by
  rw [processPage_eval enc pf b k np frames st p im i1 i2 i3 b1 b2 b3 hgetd h1 h2 h3]
  cases b3 <;> cases b1 <;> simp [hnp]

/-! ### Claim C4 -/

/-- Claim C4, counterexample: when every `put_object` raises
`ClientError`, the handler still returns statusCode 200 / "Success" and
lists the page among `modified_pages`: `put_tif_buffer`'s error value is
discarded at app.py line 308, so a destination write failure is silently
swallowed, not surfaced. -/
theorem C4_counterexample :
    (lambda_handler encSmall allFail "b" "doc.tif" [imBit]).1.statusCode = 200 ∧
    (lambda_handler encSmall allFail "b" "doc.tif" [imBit]).1.body.message = "Success" ∧
    (lambda_handler encSmall allFail "b" "doc.tif" [imBit]).1.body.modified_pages
      = [{ bucket := "b", key := "doc.tif", page_num := 1 }] ∧
    (lambda_handler encSmall allFail "b" "doc.tif" [imBit]).2
      = [⟨"b", "doc.tif", convertImg imBit "RGB", PutOutcome.clientError 400 "Boto clienterror"⟩] := by
  have hk : strContains "doc.tif" ".DS_Store" = false := by decide
  have h1 : check_img_mode imBit = (true, convertImg imBit "RGB") := by decide
  have h2 : check_oversized_dimen (convertImg imBit "RGB") = (false, convertImg imBit "RGB") :=
    check_oversized_dimen_of_le (by decide)
  have h3 : check_oversized_mem encSmall (convertImg imBit "RGB") 10485760
      = (false, convertImg imBit "RGB") :=
    check_oversized_mem_of_le (by norm_num [encSmall])
  have hstep := processPage_eval encSmall allFail "b" "doc.tif" 1 [imBit] initState 0
    imBit (convertImg imBit "RGB") (convertImg imBit "RGB") (convertImg imBit "RGB")
    true false false (by rfl) h1 h2 h3
  rw [lambda_handler_single encSmall allFail "b" "doc.tif" imBit hk, hstep]
  simp [initState, put_tif_buffer, allFail]

/-- Claim C4, amended: `put_tif_buffer` converts a `ClientError` into a
400 error dict instead of raising, but `lambda_handler` discards that
return value: the handler's Python return value is entirely independent
of which puts fail. -/
theorem C4_put_errors_not_surfaced (enc : Img → Nat) (pf pf' : String → String → Bool)
    (bucket key : String) (frames : List Img) :
    (lambda_handler enc pf bucket key frames).1 = (lambda_handler enc pf' bucket key frames).1 := by
  unfold lambda_handler
  cases h : strContains key ".DS_Store"
  · simp only [h, Bool.false_eq_true, if_false]
    have hi := handlerFold_pf_independent enc pf pf' bucket key frames frames.length
    rw [hi.2.1, hi.2.2]
  · simp only [h, if_true]

/-! ### Claim C3 -/

/-- The single-page test fixture key from the repository's own unit
tests (`tests/unit/test_handler.py`). -/
def kOlm : String := "test/mn-olmsted-county/mn_olmsted_H81540_index_color_1_page.tiff"

/-- Claim C3, code bug: a single-page 1-bit image is modified (mode
fix), but its destination key is the UNCHANGED source key — no
"modified" marker of any kind is appended (the write overwrites the
source object).  The repository's own test
`test_index_1_page_tif_1` instead expects the destination key
`.../mn_olmsted_H81540_index_color_1_page_MODIFIED.tiff`. -/
theorem C3_code_eval :
    (lambda_handler encSmall noFail "covenants-deed-images" kOlm [imBit]).1.body.modified_pages
      = [{ bucket := "covenants-deed-images", key := kOlm, page_num := 1 }] ∧
    (lambda_handler encSmall noFail "covenants-deed-images" kOlm [imBit]).2
      = [⟨"covenants-deed-images", kOlm, convertImg imBit "RGB", PutOutcome.success⟩] ∧
    kOlm ≠ "test/mn-olmsted-county/mn_olmsted_H81540_index_color_1_page_MODIFIED.tiff" := by
  have hk : strContains kOlm ".DS_Store" = false := by decide
  have h1 : check_img_mode imBit = (true, convertImg imBit "RGB") := by decide
  have h2 : check_oversized_dimen (convertImg imBit "RGB") = (false, convertImg imBit "RGB") :=
    check_oversized_dimen_of_le (by decide)
  have h3 : check_oversized_mem encSmall (convertImg imBit "RGB") 10485760
      = (false, convertImg imBit "RGB") :=
    check_oversized_mem_of_le (by norm_num [encSmall])
  have hstep := processPage_eval encSmall noFail "covenants-deed-images" kOlm 1 [imBit]
    initState 0 imBit (convertImg imBit "RGB") (convertImg imBit "RGB") (convertImg imBit "RGB")
    true false false (by rfl) h1 h2 h3
  rw [lambda_handler_single encSmall noFail "covenants-deed-images" kOlm imBit hk, hstep]
  refine ⟨?_, ?_, by decide⟩ <;> simp [initState, put_tif_buffer, noFail]

/-! ### Claim C9 -/

/-- Claim C9: page-count conservation.  For every run that gets past the
`.DS_Store` guard, the reported page count is the frame count after
extraction, the modified and unmodified lists together have exactly that
many entries, and every 1-based page number `1..N` occurs exactly once
across the two lists (and nothing else does). -/
theorem C9_page_count_conservation (enc : Img → Nat) (putFails : String → String → Bool)
    (bucket key : String) (frames : List Img)
    (hkey : strContains key ".DS_Store" = false) :
    (lambda_handler enc putFails bucket key frames).1.body.page_count = frames.length ∧
    (lambda_handler enc putFails bucket key frames).1.body.modified_pages.length
        + (lambda_handler enc putFails bucket key frames).1.body.pages.length
      = (lambda_handler enc putFails bucket key frames).1.body.page_count ∧
    ∀ n : Nat,
      ((lambda_handler enc putFails bucket key frames).1.body.modified_pages.map
            PageDescriptor.page_num
        ++ (lambda_handler enc putFails bucket key frames).1.body.pages.map
            PageDescriptor.page_num).count n
      = if 1 ≤ n ∧ n ≤ frames.length then 1 else 0 := by
  have hc := handlerFold_count enc putFails bucket key frames frames.length
  unfold lambda_handler
  simp only [hkey, Bool.false_eq_true, if_false]
  exact ⟨by trivial, hc.1, hc.2⟩

/-- Witness for C9 on a concrete one-page run. -/
theorem C9_page_count_conservation_witness :
    strContains "deed2.tif" ".DS_Store" = false ∧
    ((lambda_handler encSmall noFail "b" "deed2.tif" [imOk]).1.body.page_count
        = ([imOk] : List Img).length ∧
     (lambda_handler encSmall noFail "b" "deed2.tif" [imOk]).1.body.modified_pages.length
        + (lambda_handler encSmall noFail "b" "deed2.tif" [imOk]).1.body.pages.length
      = (lambda_handler encSmall noFail "b" "deed2.tif" [imOk]).1.body.page_count ∧
     ∀ n : Nat,
      ((lambda_handler encSmall noFail "b" "deed2.tif" [imOk]).1.body.modified_pages.map
            PageDescriptor.page_num
        ++ (lambda_handler encSmall noFail "b" "deed2.tif" [imOk]).1.body.pages.map
            PageDescriptor.page_num).count n
      = if 1 ≤ n ∧ n ≤ ([imOk] : List Img).length then 1 else 0) :=
  ⟨by decide, C9_page_count_conservation encSmall noFail "b" "deed2.tif" [imOk] (by decide)⟩

/-! ### Claim C8 -/

/-- Claim C8, counterexample: for a multi-page source whose key
`deed.png` has no recognizable TIFF extension, the handler raises no
error at all — `re.split` consumes nothing, the WHOLE key becomes the
stem, and destination keys are synthesized by appending
`_SPLITPAGE_n.tif` to it.  A guessed destination key is produced instead
of an error. -/
theorem C8_counterexample :
    key_minus_extension "deed.png" = "deed.png" ∧
    (lambda_handler encSmall noFail "b" "deed.png" [imOk, imOk]).1.statusCode = 200 ∧
    (lambda_handler encSmall noFail "b" "deed.png" [imOk, imOk]).1.body.message = "Success" ∧
    (lambda_handler encSmall noFail "b" "deed.png" [imOk, imOk]).1.body.modified_pages
      = [{ bucket := "b", key := "deed.png_SPLITPAGE_1.tif", page_num := 1 },
         { bucket := "b", key := "deed.png_SPLITPAGE_2.tif", page_num := 2 }] := by
  have hk : strContains "deed.png" ".DS_Store" = false := by decide
  have hk1 : splitPageKey "deed.png" 0 = "deed.png_SPLITPAGE_1.tif" := by decide
  have hk2 : splitPageKey "deed.png" 1 = "deed.png_SPLITPAGE_2.tif" := by decide
  have h1 : check_img_mode imOk = (false, imOk) := by decide
  have h2 : check_oversized_dimen imOk = (false, imOk) :=
    check_oversized_dimen_of_le (by decide)
  have h3 : check_oversized_mem encSmall imOk 10485760 = (false, imOk) :=
    check_oversized_mem_of_le (by norm_num [encSmall])
  rw [lambda_handler_two encSmall noFail "b" "deed.png" imOk imOk hk,
    processPage_multi encSmall noFail "b" "deed.png" 2 [imOk, imOk] _ 1
      imOk imOk imOk imOk false false false (by norm_num) (by rfl) h1 h2 h3,
    processPage_multi encSmall noFail "b" "deed.png" 2 [imOk, imOk] initState 0
      imOk imOk imOk imOk false false false (by norm_num) (by rfl) h1 h2 h3]
  simp [initState, hk1, hk2]
  decide

/-- Claim C8, amended: key derivation never fails closed — the handler
returns statusCode 200 for every input, and every non-`.DS_Store` run
reports "Success", whatever the key's extension. -/
theorem C8_never_fails (enc : Img → Nat) (pf : String → String → Bool)
    (bucket key : String) (frames : List Img)
    (hk : strContains key ".DS_Store" = false) :
    (lambda_handler enc pf bucket key frames).1.statusCode = 200 ∧
    (lambda_handler enc pf bucket key frames).1.body.message = "Success" := by
  unfold lambda_handler
  simp only [hk, Bool.false_eq_true, if_false]
  exact ⟨by trivial, by trivial⟩

/-- Witness for the amended C8 at an extensionless key. -/
theorem C8_never_fails_witness :
    strContains "deed3.png" ".DS_Store" = false ∧
    ((lambda_handler encSmall noFail "b" "deed3.png" [imOk]).1.statusCode = 200 ∧
     (lambda_handler encSmall noFail "b" "deed3.png" [imOk]).1.body.message = "Success") :=
  ⟨by decide, C8_never_fails encSmall noFail "b" "deed3.png" [imOk] (by decide)⟩

/-! ### Claim C6 -/

/-- Claim C6, counterexample: the handler does NOT apply the checks in
the order dimension → mode → size.  On a 1-bit 20000 x 10000 page the
image it writes is `resize(convert(im))` (mode fix first, then
dimension fix), while the spec-order pipeline would produce
`convert(resize(im))`; the two differ. -/
theorem C6_counterexample :
    (lambda_handler encSmall noFail "b" "page.tif" [imBitDim]).2.map PutAttempt.img
      = [resizeImg (convertImg imBitDim "RGB") 10000 5000] ∧
    (specOrderChecks encSmall imBitDim).2.2.2
      = convertImg (resizeImg imBitDim 10000 5000) "RGB" ∧
    resizeImg (convertImg imBitDim "RGB") 10000 5000
      ≠ convertImg (resizeImg imBitDim 10000 5000) "RGB" := by
  have hk : strContains "page.tif" ".DS_Store" = false := by decide
  have h1 : check_img_mode imBitDim = (true, convertImg imBitDim "RGB") := by decide
  have h3 : check_oversized_mem encSmall (resizeImg (convertImg imBitDim "RGB") 10000 5000) 10485760
      = (false, resizeImg (convertImg imBitDim "RGB") 10000 5000) :=
    check_oversized_mem_of_le (by norm_num [encSmall])
  have hstep := processPage_eval encSmall noFail "b" "page.tif" 1 [imBitDim] initState 0
    imBitDim (convertImg imBitDim "RGB") (resizeImg (convertImg imBitDim "RGB") 10000 5000)
    (resizeImg (convertImg imBitDim "RGB") 10000 5000) true true false (by rfl) h1
    cd_imBitDimConverted h3
  refine ⟨?_, ?_, by decide⟩
  · rw [lambda_handler_single encSmall noFail "b" "page.tif" imBitDim hk, hstep]
    simp [initState, put_tif_buffer, noFail]
  · have hs1 : check_img_mode (resizeImg imBitDim 10000 5000)
        = (true, convertImg (resizeImg imBitDim 10000 5000) "RGB") := by decide
    have hs3 : check_oversized_mem encSmall
        (convertImg (resizeImg imBitDim 10000 5000) "RGB") 10485760
        = (false, convertImg (resizeImg imBitDim 10000 5000) "RGB") :=
      check_oversized_mem_of_le (by norm_num [encSmall])
    simp only [specOrderChecks, cd_imBitDim, hs1, hs3]

/-- Claim C6, amended: the checks run in the order mode → dimension →
size, each receiving the page as mutated by the previous one.  For a
single-page run: the image the handler writes (when it writes) is
`check_oversized_mem` applied to the `check_oversized_dimen` result of
the `check_img_mode` result of the page — so the size check does measure
the post-mode/dimension-fix encoding — and the page is reported modified
iff the mode check or the size check fired (the dimension flag being
dropped, cf. C2). -/
theorem C6_order_mode_dimension_size (enc : Img → Nat) (pf : String → String → Bool)
    (b k : String) (im : Img) (hk : strContains k ".DS_Store" = false) :
    ((lambda_handler enc pf b k [im]).1.body.modified_pages ≠ []
        ↔ ((check_img_mode im).1
            || (check_oversized_mem enc
                  (check_oversized_dimen (check_img_mode im).2).2 10485760).1) = true) ∧
    ∀ pa ∈ (lambda_handler enc pf b k [im]).2,
      pa.img = (check_oversized_mem enc
        (check_oversized_dimen (check_img_mode im).2).2 10485760).2 := by
  rw [lambda_handler_single enc pf b k im hk,
    processPage_eval enc pf b k 1 [im] initState 0 im (check_img_mode im).2
      (check_oversized_dimen (check_img_mode im).2).2
      (check_oversized_mem enc (check_oversized_dimen (check_img_mode im).2).2 10485760).2
      (check_img_mode im).1 (check_oversized_dimen (check_img_mode im).2).1
      (check_oversized_mem enc (check_oversized_dimen (check_img_mode im).2).2 10485760).1
      (by rfl) (by rfl) (by rfl) (by rfl)]
  cases h1 : (check_img_mode im).1 <;>
    cases h3 : (check_oversized_mem enc
        (check_oversized_dimen (check_img_mode im).2).2 10485760).1 <;>
      simp [initState]

/-- Witness for the amended C6 on a 1-bit single page. -/
theorem C6_order_witness :
    strContains "page2.tif" ".DS_Store" = false ∧
    (((lambda_handler encSmall noFail "b" "page2.tif" [imBit]).1.body.modified_pages ≠ []
        ↔ ((check_img_mode imBit).1
            || (check_oversized_mem encSmall
                  (check_oversized_dimen (check_img_mode imBit).2).2 10485760).1) = true) ∧
     ∀ pa ∈ (lambda_handler encSmall noFail "b" "page2.tif" [imBit]).2,
       pa.img = (check_oversized_mem encSmall
         (check_oversized_dimen (check_img_mode imBit).2).2 10485760).2) :=
  ⟨by decide, C6_order_mode_dimension_size encSmall noFail "b" "page2.tif" imBit (by decide)⟩

/-! ### Claim C1 -/

/-- First written page of the C1 counterexample run (after the
byte-budget resize at ratio `0.95 * sqrt(1/4)`). -/
def g0 : Img := resizeImg f0 1900 1425

/-- Second written page of the C1 counterexample run. -/
def g1 : Img := resizeImg f1 1900 1425

lemma mem_f0_fires : check_oversized_mem encSticky f0 10485760 = (true, g0) := by
  have hgt : (10485760 : Nat) < encSticky f0 := by norm_num [encSticky, f0]
  rw [check_oversized_mem_of_gt hgt]
  have hdims : memNewDims f0.width f0.height (encSticky f0) 10485760 = (1900, 1425) := by
    show memNewDims 4000 3000 41943040 10485760 = (1900, 1425)
    exact memNewDims_4000_3000
  rw [hdims]
  rfl

lemma mem_f1_fires : check_oversized_mem encSticky f1 10485760 = (true, g1) := by
  have hgt : (10485760 : Nat) < encSticky f1 := by norm_num [encSticky, f1]
  rw [check_oversized_mem_of_gt hgt]
  have hdims : memNewDims f1.width f1.height (encSticky f1) 10485760 = (1900, 1425) := by
    show memNewDims 4000 3000 41943040 10485760 = (1900, 1425)
    exact memNewDims_4000_3000
  rw [hdims]
  rfl

/-- Claim C1, counterexample: the pipeline's outputs are NOT fixed
points.  Under the admissible encoder `encSticky` (compression ratio
degrades after resampling), a 2-page source is split and each page is
byte-budget-resized and written under a `_SPLITPAGE_` key; feeding the
first written page's content back through the pipeline modifies it AGAIN
(its encoded size, 10600000 bytes, still exceeds 10485760 — the one-shot
0.95·sqrt estimate missed) and performs another write, instead of
landing in the unmodified list with no write. -/
theorem C1_counterexample :
    (lambda_handler encSticky noFail "b" "deed.tif" [f0, f1]).2
      = [⟨"b", "deed_SPLITPAGE_1.tif", g0, PutOutcome.success⟩,
         ⟨"b", "deed_SPLITPAGE_2.tif", g1, PutOutcome.success⟩] ∧
    10485760 < encSticky g0 ∧
    (lambda_handler encSticky noFail "b" "deed_SPLITPAGE_1.tif" [g0]).1.body.modified_pages
      = [{ bucket := "b", key := "deed_SPLITPAGE_1.tif", page_num := 1 }] ∧
    (lambda_handler encSticky noFail "b" "deed_SPLITPAGE_1.tif" [g0]).1.body.pages = [] ∧
    (lambda_handler encSticky noFail "b" "deed_SPLITPAGE_1.tif" [g0]).2 ≠ [] := by
  have hk : strContains "deed.tif" ".DS_Store" = false := by decide
  have hks : strContains "deed_SPLITPAGE_1.tif" ".DS_Store" = false := by decide
  have hk1 : splitPageKey "deed.tif" 0 = "deed_SPLITPAGE_1.tif" := by decide
  have hk2 : splitPageKey "deed.tif" 1 = "deed_SPLITPAGE_2.tif" := by decide
  have h1f0 : check_img_mode f0 = (false, f0) := by decide
  have h1f1 : check_img_mode f1 = (false, f1) := by decide
  have h2f0 : check_oversized_dimen f0 = (false, f0) :=
    check_oversized_dimen_of_le (by decide)
  have h2f1 : check_oversized_dimen f1 = (false, f1) :=
    check_oversized_dimen_of_le (by decide)
  refine ⟨?_, by norm_num [encSticky, g0, resizeImg], ?_⟩
  · rw [lambda_handler_two encSticky noFail "b" "deed.tif" f0 f1 hk,
      processPage_multi encSticky noFail "b" "deed.tif" 2 [f0, f1] _ 1
        f1 f1 f1 g1 false false true (by norm_num) (by rfl) h1f1 h2f1 mem_f1_fires,
      processPage_multi encSticky noFail "b" "deed.tif" 2 [f0, f1] initState 0
        f0 f0 f0 g0 false false true (by norm_num) (by rfl) h1f0 h2f0 mem_f0_fires]
    simp [initState, hk1, hk2, put_tif_buffer, noFail]
  · have h1g : check_img_mode g0 = (false, g0) := by decide
    have h2g : check_oversized_dimen g0 = (false, g0) :=
      check_oversized_dimen_of_le (by decide)
    have hgt : (10485760 : Nat) < encSticky g0 := by norm_num [encSticky, g0, resizeImg]
    have h3g := @check_oversized_mem_of_gt encSticky g0 10485760 hgt
    rw [lambda_handler_single encSticky noFail "b" "deed_SPLITPAGE_1.tif" g0 hks,
      processPage_eval encSticky noFail "b" "deed_SPLITPAGE_1.tif" 1 [g0] initState 0
        g0 g0 g0
        (resizeImg g0 (memNewDims g0.width g0.height (encSticky g0) 10485760).1
          (memNewDims g0.width g0.height (encSticky g0) 10485760).2)
        false false true (by rfl) h1g h2g h3g]
    simp [initState]

/-- Claim C1, amended: a page written by the pipeline always passes the
mode and dimension checks again, so reprocessing it yields zero further
modifications and no write PROVIDED its encoded size is within the
10485760-byte limit; because the byte-budget fix is a one-shot estimate,
that size condition is not guaranteed, and an output still over the
limit is modified again (see the counterexample). -/
theorem C1_reprocess_fixed_point (enc : Img → Nat) (pf pf' : String → String → Bool)
    (b k b2 k2 : String) (frames : List Img) (pa : PutAttempt)
    (hmem : pa ∈ (lambda_handler enc pf b k frames).2)
    (hsize : enc pa.img ≤ 10485760)
    (hk2 : strContains k2 ".DS_Store" = false) :
    (lambda_handler enc pf' b2 k2 [pa.img]).1.body.modified_pages = [] ∧
    (lambda_handler enc pf' b2 k2 [pa.img]).2 = [] ∧
    (lambda_handler enc pf' b2 k2 [pa.img]).1.body.pages
      = [{ bucket := b2, key := k2, page_num := 1 }] := by
  have hpost : ∃ p : Img, pa.img = postChecks enc p := by
    cases hb : strContains k ".DS_Store"
    · have hmem' : pa ∈ (handlerFold enc pf b k frames frames.length).puts := by
        have hm := hmem
        unfold lambda_handler at hm
        simpa [hb] using hm
      exact handlerFold_puts_postChecks enc pf b k frames frames.length pa hmem'
    · exfalso
      have hm := hmem
      unfold lambda_handler at hm
      simp [hb] at hm
  obtain ⟨p, hp⟩ := hpost
  have hmode : pa.img.mode ≠ "1" := by
    rw [hp]
    exact postChecks_mode_ne enc p
  have hdim : max pa.img.width pa.img.height ≤ 10000 := by
    rw [hp]
    exact postChecks_dims_le enc p
  rw [lambda_handler_single_clean enc pf' b2 k2 pa.img hk2 hmode hdim hsize]
  exact ⟨rfl, rfl, rfl⟩

/-- Witness for the amended C1: both pages of a compliant 2-page source
are written verbatim under split keys; reprocessing the first written
page (encoded size 5000000 ≤ 10485760) yields no modification and no
write. -/
theorem C1_reprocess_fixed_point_witness :
    (⟨"b", "w_SPLITPAGE_1.tif", imOk, PutOutcome.success⟩ : PutAttempt)
        ∈ (lambda_handler enc5M noFail "b" "w.tif" [imOk, imOk]).2 ∧
    enc5M (PutAttempt.img ⟨"b", "w_SPLITPAGE_1.tif", imOk, PutOutcome.success⟩) ≤ 10485760 ∧
    strContains "out.tif" ".DS_Store" = false ∧
    ((lambda_handler enc5M noFail "b" "out.tif"
        [PutAttempt.img ⟨"b", "w_SPLITPAGE_1.tif", imOk, PutOutcome.success⟩]).1.body.modified_pages
          = [] ∧
     (lambda_handler enc5M noFail "b" "out.tif"
        [PutAttempt.img ⟨"b", "w_SPLITPAGE_1.tif", imOk, PutOutcome.success⟩]).2 = [] ∧
     (lambda_handler enc5M noFail "b" "out.tif"
        [PutAttempt.img ⟨"b", "w_SPLITPAGE_1.tif", imOk, PutOutcome.success⟩]).1.body.pages
          = [{ bucket := "b", key := "out.tif", page_num := 1 }]) := by
  have hk : strContains "w.tif" ".DS_Store" = false := by decide
  have hkw1 : splitPageKey "w.tif" 0 = "w_SPLITPAGE_1.tif" := by decide
  have hkw2 : splitPageKey "w.tif" 1 = "w_SPLITPAGE_2.tif" := by decide
  have h1 : check_img_mode imOk = (false, imOk) := by decide
  have h2 : check_oversized_dimen imOk = (false, imOk) :=
    check_oversized_dimen_of_le (by decide)
  have h3 : check_oversized_mem enc5M imOk 10485760 = (false, imOk) :=
    check_oversized_mem_of_le (by norm_num [enc5M])
  have hrun1 : (lambda_handler enc5M noFail "b" "w.tif" [imOk, imOk]).2
      = [⟨"b", "w_SPLITPAGE_1.tif", imOk, PutOutcome.success⟩,
         ⟨"b", "w_SPLITPAGE_2.tif", imOk, PutOutcome.success⟩] := by
    rw [lambda_handler_two enc5M noFail "b" "w.tif" imOk imOk hk,
      processPage_multi enc5M noFail "b" "w.tif" 2 [imOk, imOk] _ 1
        imOk imOk imOk imOk false false false (by norm_num) (by rfl) h1 h2 h3,
      processPage_multi enc5M noFail "b" "w.tif" 2 [imOk, imOk] initState 0
        imOk imOk imOk imOk false false false (by norm_num) (by rfl) h1 h2 h3]
    simp [initState, hkw1, hkw2, put_tif_buffer, noFail]
  have hmem : (⟨"b", "w_SPLITPAGE_1.tif", imOk, PutOutcome.success⟩ : PutAttempt)
      ∈ (lambda_handler enc5M noFail "b" "w.tif" [imOk, imOk]).2 := by
    rw [hrun1]
    simp
  exact ⟨hmem, by norm_num [enc5M], by decide,
    C1_reprocess_fixed_point enc5M noFail noFail "b" "w.tif" "b" "out.tif" [imOk, imOk] _
      hmem (by norm_num [enc5M]) (by decide)⟩

end SplitPages
